import Mathlib

/-!
Shallow embedding of the authorization-configuration validation code of this
repository, together with proofs about it.

Embedded source files:
* `staging/src/k8s.io/apiserver/pkg/authorization/config/validation/validation.go`
  (`ValidateAuthorizationConfiguration`, `ValidateWebhookConfiguration`,
  `ValidateWebhookMatchCondition`)
* the `config` package types (`AuthorizationConfiguration`,
  `AuthorizerConfiguration`, `WebhookConfiguration`, `WebhookConnectionInfo`,
  `WebhookMatchCondition`, `TypeWebhook`)
* the `options` package (`BuiltInAuthorizationOptions`,
  `buildAuthorizationConfiguration`, `ToAuthorizationConfig`).

Go `time.Duration` is modelled as `Int` (nanoseconds).  The `os.Stat` call of
the kube-config-file check is modelled by an explicit file-system oracle
(`FS`), and `filepath.IsAbs` by the Unix rule (leading slash).  `sets.String`
is modelled as a `List String` with membership-based insertion; `List()` of a
set (used only for the supported-values payload of not-supported errors) is
modelled by an insertion sort.
-/

/-- Go `time.Duration`: a count of nanoseconds (int64 in Go). -/
abbrev GoDuration := Int

/-- One nanosecond, the unit of `GoDuration`. -/
def nanosecond : GoDuration := 1

/-- Go `time.Second` in nanoseconds. -/
def second : GoDuration := 1000000000

/-- Go `time.Minute` in nanoseconds. -/
def minute : GoDuration := 60 * second

/-- A component of a `field.FieldPath`: `Child` adds a named component, `Index`
adds a numeric index (rendered `parent[i]` by Go). -/
inductive PathElem where
  | child (s : String)
  | index (n : Nat)
deriving DecidableEq

/-- A `field.FieldPath` is the list of its components, root first. -/
abbrev FieldPath := List PathElem

/-- The four `field.ErrorType` kinds this validator produces. -/
inductive ErrType where
  | required
  | invalid
  | notSupported
  | duplicate
deriving DecidableEq

/-- The `BadValue` attached to a `field.Error`.  `field.Invalid` on the
timeout attaches `Duration.String()`; we keep the numeric value under the
`durStr` constructor instead of re-implementing Go's duration rendering. -/
inductive BadValue where
  | str (s : String)
  | durStr (ns : GoDuration)
deriving DecidableEq

/-- A structured `field.Error`: kind, field path, offending value, detail
text, and (for not-supported errors) the supported-values list that Go
formats into the detail. -/
structure FieldError where
  errType : ErrType
  field : FieldPath
  badValue : BadValue
  detail : String
  supportedValues : List String
deriving DecidableEq

/-- Mirrors `field.Required(path, detail)`: bad value is the empty string. -/
def fieldRequired (p : FieldPath) (detail : String) : FieldError :=
  ⟨.required, p, .str "", detail, []⟩

/-- Mirrors `field.Invalid(path, value, detail)`. -/
def fieldInvalid (p : FieldPath) (value : BadValue) (detail : String) : FieldError :=
  ⟨.invalid, p, value, detail, []⟩

/-- Mirrors `field.NotSupported(path, value, validValues)`; Go formats the
valid values into the detail text, we carry them as a list. -/
def fieldNotSupported (p : FieldPath) (value : BadValue) (valid : List String) : FieldError :=
  ⟨.notSupported, p, value, "supported values", valid⟩

/-- Mirrors `field.Duplicate(path, value)`. -/
def fieldDuplicate (p : FieldPath) (value : BadValue) : FieldError :=
  ⟨.duplicate, p, value, "", []⟩

/-- `config.WebhookMatchCondition` (the `Message` field of the versioned type
plays no role in validation and is omitted in the internal type). -/
structure WebhookMatchCondition where
  expression : String
deriving DecidableEq

/-- `config.WebhookConnectionInfo`: `KubeConfigFile` is a `*string`. -/
structure WebhookConnectionInfo where
  type : String
  kubeConfigFile : Option String
deriving DecidableEq

/-- `config.WebhookConfiguration` with durations in nanoseconds. -/
structure WebhookConfiguration where
  name : String
  authorizedTTL : GoDuration
  unauthorizedTTL : GoDuration
  timeout : GoDuration
  subjectAccessReviewVersion : String
  failurePolicy : String
  connectionInfo : WebhookConnectionInfo
  matchConditions : List WebhookMatchCondition
deriving DecidableEq

/-- `config.TypeWebhook`. -/
def TypeWebhook : String := "Webhook"

/-- `config.AuthorizerConfiguration` (`Type` is a string alias in Go;
the Lean field is lowercase because `Type` is reserved). -/
structure AuthorizerConfiguration where
  type : String
  webhook : Option WebhookConfiguration
deriving DecidableEq

/-- `config.AuthorizationConfiguration`. -/
structure AuthorizationConfiguration where
  authorizers : List AuthorizerConfiguration
deriving DecidableEq

/-- Outcome of `os.Stat` on a path: an error carrying the OS message, or an
entry that is or is not a regular file. -/
inductive FileStat where
  | statError (msg : String)
  | entry (regular : Bool)
deriving DecidableEq

/-- The file-system oracle consulted by the kube-config-file check. -/
abbrev FS := String → FileStat

/-- `filepath.IsAbs` on Unix: the path begins with a slash. -/
def isAbs (p : String) : Bool :=
  match p.data with
  | [] => false
  | c :: _ => decide (c = '/')

/-- Model of `sets.String`: a list used only through membership. -/
abbrev StringSet := List String

/-- `sets.String.Insert`: add the element when not yet present. -/
def insertStr (s : String) (l : StringSet) : StringSet :=
  if l.contains s then l else s :: l

/-- Ascending insertion, used to model `sets.String.List()`. -/
def sortedInsert (s : String) : List String → List String
  | [] => [s]
  | x :: xs => if x < s then x :: sortedInsert s xs else s :: x :: xs

/-- Model of `sets.String.List()`: the members in sorted order. -/
def sortStrings (l : List String) : List String := l.foldr sortedInsert []

/-- Go `unicode.IsSpace`, i.e. exactly the Unicode White_Space code points. -/
def goIsSpace (ch : Char) : Bool :=
  decide ((9 ≤ ch.toNat ∧ ch.toNat ≤ 13) ∨ ch.toNat = 32 ∨ ch.toNat = 0x85 ∨
    ch.toNat = 0xA0 ∨ ch.toNat = 0x1680 ∨ (0x2000 ≤ ch.toNat ∧ ch.toNat ≤ 0x200A) ∨
    ch.toNat = 0x2028 ∨ ch.toNat = 0x2029 ∨ ch.toNat = 0x202F ∨
    ch.toNat = 0x205F ∨ ch.toNat = 0x3000)

/-- Go `strings.TrimSpace`: drop leading and trailing white space. -/
def trimSpace (s : String) : String :=
  String.mk (((s.data.dropWhile goIsSpace).reverse.dropWhile goIsSpace).reverse)

/-- Name block of `ValidateWebhookConfiguration` (validation.go lines 83-91):
an empty name is required only under `requireName`; a non-empty name already
seen is a duplicate. -/
def nameErrs (fldPath : FieldPath) (c : WebhookConfiguration) (requireName : Bool)
    (seenNames : StringSet) : List FieldError :=
  if c.name.length = 0 then
    if requireName then [fieldRequired (fldPath ++ [.child "name"]) ""] else []
  else if seenNames.contains c.name then
    [fieldDuplicate (fldPath ++ [.child "name"]) (.str c.name)]
  else []

/-- AuthorizedTTL block (lines 94-96): zero duration is required. -/
def authorizedTTLErrs (fldPath : FieldPath) (c : WebhookConfiguration) : List FieldError :=
  if c.authorizedTTL = 0 then [fieldRequired (fldPath ++ [.child "authorizedTTL"]) ""] else []

/-- UnauthorizedTTL block (lines 98-100): zero duration is required. -/
def unauthorizedTTLErrs (fldPath : FieldPath) (c : WebhookConfiguration) : List FieldError :=
  if c.unauthorizedTTL = 0 then [fieldRequired (fldPath ++ [.child "unauthorizedTTL"]) ""] else []

/-- Timeout block (lines 102-106).  The source compares against
`30*time.Minute` (while the error text says 30s); the embedding keeps the
source's bound. -/
def timeoutErrs (fldPath : FieldPath) (c : WebhookConfiguration) : List FieldError :=
  if c.timeout = 0 then [fieldRequired (fldPath ++ [.child "timeout"]) ""]
  else if c.timeout > 30 * minute then
    [fieldInvalid (fldPath ++ [.child "timeout"]) (.durStr c.timeout) "must be <= 30s"]
  else []

/-- SubjectAccessReviewVersion block (lines 108-118): also selects the sample
SAR object handed to the match-condition checker (modelled by the version
string it would carry). -/
def sarErrsAndSample (fldPath : FieldPath) (c : WebhookConfiguration) :
    List FieldError × Option String :=
  if c.subjectAccessReviewVersion = "" then
    ([fieldRequired (fldPath ++ [.child "subjectAccessReviewVersion"]) ""], none)
  else if c.subjectAccessReviewVersion = "v1" then ([], some "v1")
  else if c.subjectAccessReviewVersion = "v1beta1" then ([], some "v1beta1")
  else
    ([fieldNotSupported (fldPath ++ [.child "subjectAccessReviewVersion"])
        (.str c.subjectAccessReviewVersion) ["v1", "v1beta1"]], none)

/-- FailurePolicy block (lines 120-126). -/
def failurePolicyErrs (fldPath : FieldPath) (c : WebhookConfiguration) : List FieldError :=
  if c.failurePolicy = "" then [fieldRequired (fldPath ++ [.child "failurePolicy"]) ""]
  else if c.failurePolicy = "NoOpinion" ∨ c.failurePolicy = "Deny" then []
  else
    [fieldNotSupported (fldPath ++ [.child "failurePolicy"]) (.str c.failurePolicy)
      ["NoOpinion", "Deny"]]

/-- ConnectionInfo block (lines 128-147).  Note that the default (unknown
type) branch attaches `c.FailurePolicy` as the offending value, exactly as
line 146 of the source does. -/
def connectionInfoErrs (fldPath : FieldPath) (fs : FS) (c : WebhookConfiguration) : List FieldError :=
  if c.connectionInfo.type = "" then
    [fieldRequired (fldPath ++ [.child "connectionInfo", .child "type"]) ""]
  else if c.connectionInfo.type = "InClusterConfig" then
    match c.connectionInfo.kubeConfigFile with
    | some f =>
        [fieldInvalid (fldPath ++ [.child "connectionInfo", .child "kubeConfigFile"]) (.str f)
          "can only be set when type=KubeConfigFile"]
    | none => []
  else if c.connectionInfo.type = "KubeConfigFile" then
    match c.connectionInfo.kubeConfigFile with
    | none => [fieldRequired (fldPath ++ [.child "connectionInfo", .child "kubeConfigFile"]) ""]
    | some f =>
        if f = "" then
          [fieldRequired (fldPath ++ [.child "connectionInfo", .child "kubeConfigFile"]) ""]
        else if !(isAbs f) then
          [fieldInvalid (fldPath ++ [.child "connectionInfo", .child "kubeConfigFile"]) (.str f)
            "must be an absolute path"]
        else
          match fs f with
          | .statError msg =>
              [fieldInvalid (fldPath ++ [.child "connectionInfo", .child "kubeConfigFile"])
                (.str f) ("error loading file: " ++ msg)]
          | .entry regular =>
              if !regular then
                [fieldInvalid (fldPath ++ [.child "connectionInfo", .child "kubeConfigFile"])
                  (.str f) "must be a regular file"]
              else []
  else
    [fieldNotSupported (fldPath ++ [.child "connectionInfo", .child "type"])
      (.str c.failurePolicy) ["InClusterConfig", "KubeConfigFile"]]

/-- `ValidateWebhookMatchCondition` (lines 161-165): the CEL type-check is an
unimplemented placeholder returning no errors. -/
def ValidateWebhookMatchCondition (fldPath : FieldPath) (sampleSAR : Option String)
    (expression : String) : List FieldError := []

/-- MatchConditions loop (lines 149-156), carrying the running index. -/
def matchConditionErrsFrom (fldPath : FieldPath) (sampleSAR : Option String) :
    List WebhookMatchCondition → Nat → List FieldError
  | [], _ => []
  | condition :: rest, i =>
    (if (trimSpace condition.expression).length = 0 then
      [fieldRequired (fldPath ++ [.child "matchConditions", .index i, .child "expression"]) ""]
     else
      ValidateWebhookMatchCondition
        (fldPath ++ [.child "matchConditions", .index i, .child "expression"])
        sampleSAR condition.expression)
    ++ matchConditionErrsFrom fldPath sampleSAR rest (i + 1)

/-- `ValidateWebhookConfiguration` (validation.go lines 81-159): the blocks
in source order, plus the mutation of `seenNames` (line 92) returned as the
second component. -/
def ValidateWebhookConfiguration (fldPath : FieldPath) (fs : FS) (c : WebhookConfiguration)
    (requireName : Bool) (seenNames : StringSet) : List FieldError × StringSet :=
  (nameErrs fldPath c requireName seenNames ++
   authorizedTTLErrs fldPath c ++
   unauthorizedTTLErrs fldPath c ++
   timeoutErrs fldPath c ++
   (sarErrsAndSample fldPath c).1 ++
   failurePolicyErrs fldPath c ++
   connectionInfoErrs fldPath fs c ++
   matchConditionErrsFrom fldPath (sarErrsAndSample fldPath c).2 c.matchConditions 0,
   insertStr c.name seenNames)

/-- Webhook-entry count of the chain (validation.go lines 38-43). -/
def countWebhooks (as : List AuthorizerConfiguration) : Nat :=
  (as.filter (fun a => decide (a.type = TypeWebhook))).length

/-- Body of the per-entry loop of `ValidateAuthorizationConfiguration`
(lines 47-76): returns the entry's errors and the updated seen-type and
seen-name sets.  `continue` corresponds to returning the sets unchanged. -/
def validateAuthorizer (fldPath : FieldPath) (fs : FS) (requireName : Bool)
    (knownTypes repeatableTypes : StringSet) (a : AuthorizerConfiguration)
    (seenTypes seenNames : StringSet) : List FieldError × StringSet × StringSet :=
  if a.type = "" then
    ([fieldRequired (fldPath ++ [.child "type"]) ""], seenTypes, seenNames)
  else if !(knownTypes.contains a.type) then
    ([fieldNotSupported (fldPath ++ [.child "type"]) (.str a.type) (sortStrings knownTypes)],
     seenTypes, seenNames)
  else if seenTypes.contains a.type && !(repeatableTypes.contains a.type) then
    ([fieldDuplicate (fldPath ++ [.child "type"]) (.str a.type)], seenTypes, seenNames)
  else
    let seenTypes2 := insertStr a.type seenTypes
    if a.type = TypeWebhook then
      match a.webhook with
      | none =>
          ([fieldRequired (fldPath ++ [.child "webhook"]) "required when type=Webhook"],
           seenTypes2, seenNames)
      | some w =>
          let r := ValidateWebhookConfiguration fldPath fs w requireName seenNames
          (r.1, seenTypes2, r.2)
    else
      match a.webhook with
      | some _ =>
          ([fieldInvalid (fldPath ++ [.child "webhook"]) (.str "non-null")
              "may only be specified when type=Webhook"], seenTypes2, seenNames)
      | none => ([], seenTypes2, seenNames)

/-- The entry loop of `ValidateAuthorizationConfiguration`, accumulating
errors in entry order while threading the seen sets. -/
def validateAuthorizersFrom (fldPath : FieldPath) (fs : FS) (webhooks : Nat)
    (knownTypes repeatableTypes : StringSet) :
    List AuthorizerConfiguration → Nat → StringSet → StringSet → List FieldError
  | [], _, _, _ => []
  | a :: rest, i, seenTypes, seenNames =>
    let r := validateAuthorizer (fldPath ++ [.child "authorizers", .index i]) fs
      (decide (0 < webhooks)) knownTypes repeatableTypes a seenTypes seenNames
    r.1 ++ validateAuthorizersFrom fldPath fs webhooks knownTypes repeatableTypes rest (i + 1)
      r.2.1 r.2.2

/-- `ValidateAuthorizationConfiguration` (validation.go lines 35-79): count
the webhook entries, then walk the chain with fresh seen sets.  The source
has no check for an empty authorizer list. -/
def ValidateAuthorizationConfiguration (fldPath : FieldPath) (fs : FS)
    (c : AuthorizationConfiguration) (knownTypes repeatableTypes : StringSet) : List FieldError :=
  validateAuthorizersFrom fldPath fs (countWebhooks c.authorizers) knownTypes repeatableTypes
    c.authorizers 0 [] []

/-- Modelled from the spec: `authzconfig.DefaultWebhookName` is referenced by
the legacy builder but its defining helpers file is not under src; spec 4.4
fixes the legacy webhook name to "default". -/
def DefaultWebhookName : String := "default"

/-- Modelled from the spec: `authzmodes.ModeAlwaysAllow` of the modes
package, which is not under src. -/
def ModeAlwaysAllow : String := "AlwaysAllow"

/-- Modelled from the spec: `authzmodes.ModeWebhook` of the modes package,
which is not under src; the Webhook mode identifier. -/
def ModeWebhook : String := "Webhook"

/-- Modelled from the spec: `authzmodes.AuthorizationModeChoices` of the
modes package, which is not under src; the options test lists the supported
values as ABAC, AlwaysAllow, AlwaysDeny, Node, RBAC, Webhook. -/
def AuthorizationModeChoices : List String :=
  ["ABAC", "AlwaysAllow", "AlwaysDeny", "Node", "RBAC", "Webhook"]

/-- Modelled from the spec: `authzmodes.RepeatableAuthorizerTypes` of the
modes package, which is not under src; the validation tests treat Webhook as
the repeatable type. -/
def RepeatableAuthorizerTypes : List String := ["Webhook"]

/-- `options.BuiltInAuthorizationOptions` (flat legacy flags; the retry
backoff plays no role in the embedded functions and is omitted). -/
structure BuiltInAuthorizationOptions where
  modes : List String
  policyFile : String
  webhookConfigFile : String
  webhookVersion : String
  webhookCacheAuthorizedTTL : GoDuration
  webhookCacheUnauthorizedTTL : GoDuration
  authorizationConfigurationFile : String
deriving DecidableEq

/-- `options.NewBuiltInAuthorizationOptions`: the flag defaults. -/
def NewBuiltInAuthorizationOptions : BuiltInAuthorizationOptions :=
  { modes := [ModeAlwaysAllow]
  , policyFile := ""
  , webhookConfigFile := ""
  , webhookVersion := "v1beta1"
  , webhookCacheAuthorizedTTL := 5 * minute
  , webhookCacheUnauthorizedTTL := 30 * second
  , authorizationConfigurationFile := "" }

/-- `options.buildAuthorizationConfiguration` (controller.go options part,
lines 364-391): one entry per mode, a full webhook spec for the Webhook
mode. -/
def buildAuthorizationConfiguration (o : BuiltInAuthorizationOptions) : AuthorizationConfiguration :=
  ⟨o.modes.map (fun mode =>
    if mode = ModeWebhook then
      { type := TypeWebhook
      , webhook := some
          { name := DefaultWebhookName
          , authorizedTTL := o.webhookCacheAuthorizedTTL
          , unauthorizedTTL := o.webhookCacheUnauthorizedTTL
          , timeout := 30 * second
          , failurePolicy := "NoOpinion"
          , subjectAccessReviewVersion := o.webhookVersion
          , connectionInfo := { type := "KubeConfigFile", kubeConfigFile := some o.webhookConfigFile }
          , matchConditions := [] } }
    else { type := mode, webhook := none })⟩

/-- The fields of `authorizer.Config` relevant to the selector (the informer
factory and retry backoff are runtime plumbing outside the embedded core). -/
structure AuthorizerRuntimeConfig where
  policyFile : String
  authorizationConfiguration : AuthorizationConfiguration
deriving DecidableEq

/-- `options.ToAuthorizationConfig` (lines 330-361): the structured-file path
when the feature is on and a file is set, a fatal error when the feature is
on without a file, the legacy builder otherwise.  File loading is an
explicit oracle. -/
def ToAuthorizationConfig (structuredAuthzFeatureEnabled : Bool)
    (o : BuiltInAuthorizationOptions)
    (loadFromFile : String → Except String AuthorizationConfiguration) :
    Except String AuthorizerRuntimeConfig :=
  if structuredAuthzFeatureEnabled = true ∧ o.authorizationConfigurationFile ≠ "" then
    match loadFromFile o.authorizationConfigurationFile with
    | .error e => .error ("failed to load config from file: " ++ e)
    | .ok config => .ok { policyFile := o.policyFile, authorizationConfiguration := config }
  else if structuredAuthzFeatureEnabled = true ∧ o.authorizationConfigurationFile = "" then
    .error "StructuredAuthorizationConfig is enabled but no configuration file is defined"
  else
    .ok { policyFile := o.policyFile
        , authorizationConfiguration := buildAuthorizationConfiguration o }

/-- A file system on which every path stats as an existing regular file. -/
def fsAllRegular : FS := fun _ => .entry true

/-- A webhook configuration mirroring the repository test's bare-minimum
valid webhook (in-cluster connection, no match conditions). -/
def baseWebhook : WebhookConfiguration :=
  { name := "default"
  , authorizedTTL := 5 * minute
  , unauthorizedTTL := 30 * second
  , timeout := 5 * second
  , subjectAccessReviewVersion := "v1"
  , failurePolicy := "NoOpinion"
  , connectionInfo := { type := "InClusterConfig", kubeConfigFile := none }
  , matchConditions := [] }

/-- The bare-minimum webhook with its timeout raised to 60 seconds. -/
def wcTimeout60 : WebhookConfiguration := { baseWebhook with timeout := 60 * second }

/-- The bare-minimum webhook with both cache TTLs made negative. -/
def wcNegativeTTL : WebhookConfiguration :=
  { baseWebhook with authorizedTTL := -(5 * minute), unauthorizedTTL := -(30 * second) }

/-- The bare-minimum webhook with an empty name. -/
def wcEmptyName : WebhookConfiguration := { baseWebhook with name := "" }

/-- C1: on an otherwise valid webhook, a zero timeout yields the Required
error and a 5-second timeout yields no timeout error, as the claim states;
but a 60-second timeout yields NO error at all, because line 104 of
validation.go compares against 30 minutes while its own message, the type
documentation and the repository's test demand a 30-second bound. -/
theorem timeout_validation_at_0_60s_5s :
    (ValidateWebhookConfiguration [] fsAllRegular { baseWebhook with timeout := 0 } false []).1
      = [fieldRequired [.child "timeout"] ""]
  ∧ (ValidateWebhookConfiguration [] fsAllRegular wcTimeout60 false []).1 = []
  ∧ (ValidateWebhookConfiguration [] fsAllRegular baseWebhook false []).1 = [] :=
  ⟨rfl, rfl, rfl⟩

/-- C2: `ValidateAuthorizationConfiguration` returns no error at all on an
empty chain, for every path, file system and type sets — the empty-chain
Required error expected by the repository's own validation test is absent
from the source. -/
theorem empty_chain_yields_no_errors (fldPath : FieldPath) (fs : FS) (kt rt : StringSet) :
    ValidateAuthorizationConfiguration fldPath fs ⟨[]⟩ kt rt = [] := rfl

/-- C4: a webhook configuration with a 60-second timeout (above the
documented 30-second bound) passes validation with an empty error list, and
so does one with negative cache TTLs — the claimed validated invariants do
not hold on the code. -/
theorem accepted_config_violates_invariants :
    (ValidateWebhookConfiguration [] fsAllRegular wcTimeout60 false []).1 = []
  ∧ wcTimeout60.timeout > 30 * second
  ∧ (ValidateWebhookConfiguration [] fsAllRegular wcNegativeTTL false []).1 = []
  ∧ wcNegativeTTL.authorizedTTL < 0 ∧ wcNegativeTTL.unauthorizedTTL < 0 :=
  ⟨rfl, by decide, rfl, by decide, by decide⟩

/-- C3 counterexample: a chain with a single otherwise well-formed Webhook
entry whose name is empty DOES produce a Required error on the name field
(line 70 passes `webhooks > 0`, which is already true with one webhook),
refuting the claim that no such error is produced. -/
theorem single_webhook_empty_name_required :
    ValidateAuthorizationConfiguration [] fsAllRegular
        ⟨[⟨"Webhook", some wcEmptyName⟩]⟩ ["Webhook"] ["Webhook"]
      = [fieldRequired [.child "authorizers", .index 0, .child "name"] ""] := rfl

/-- C8: when the structured-configuration feature is enabled but the
configuration-file path is empty, `ToAuthorizationConfig` returns the fatal
configuration error for every possible file loader — the loader is never
consulted and no field-error list is produced. -/
theorem selector_fails_fast_on_missing_file (o : BuiltInAuthorizationOptions)
    (loadFromFile : String → Except String AuthorizationConfiguration)
    (h : o.authorizationConfigurationFile = "") :
    ToAuthorizationConfig true o loadFromFile =
      .error "StructuredAuthorizationConfig is enabled but no configuration file is defined" := by
  simp [ToAuthorizationConfig, h]

/-- C8 witness: the fast-fail at the default options (empty file path) with
a loader that would reject every path. -/
theorem selector_fails_fast_witness :
    ToAuthorizationConfig true NewBuiltInAuthorizationOptions (fun _ => .error "unused") =
      .error "StructuredAuthorizationConfig is enabled but no configuration file is defined" :=
  selector_fails_fast_on_missing_file NewBuiltInAuthorizationOptions (fun _ => .error "unused") rfl

/-- The default options with the legacy mode list AlwaysAllow,Webhook and a
given webhook kube-config path. -/
def legacyOptions (p : String) : BuiltInAuthorizationOptions :=
  { NewBuiltInAuthorizationOptions with
      modes := [ModeAlwaysAllow, ModeWebhook], webhookConfigFile := p }

/-- C5: building from the mode list AlwaysAllow,Webhook with default cache
TTLs and an absolute path that stats as an existing regular file, then
validating, yields no errors; the chain has length 2 and its second entry is
the Webhook entry with name "default", failurePolicy "NoOpinion", timeout
30s and a KubeConfigFile connection carrying the path. -/
theorem legacy_build_then_validate (p : String) (fs : FS)
    (hAbs : isAbs p = true) (hStat : fs p = .entry true) :
    ValidateAuthorizationConfiguration [] fs (buildAuthorizationConfiguration (legacyOptions p))
        AuthorizationModeChoices RepeatableAuthorizerTypes = []
  ∧ (buildAuthorizationConfiguration (legacyOptions p)).authorizers.length = 2
  ∧ (buildAuthorizationConfiguration (legacyOptions p)).authorizers.get? 1 =
      some ⟨TypeWebhook, some
        { name := DefaultWebhookName
        , authorizedTTL := 5 * minute
        , unauthorizedTTL := 30 * second
        , timeout := 30 * second
        , failurePolicy := "NoOpinion"
        , subjectAccessReviewVersion := "v1beta1"
        , connectionInfo := { type := "KubeConfigFile", kubeConfigFile := some p }
        , matchConditions := [] }⟩ := by
  have hne : p ≠ "" := by
    intro h
    subst h
    exact absurd hAbs (by decide)
  refine ⟨?_, rfl, rfl⟩
  simp [ValidateAuthorizationConfiguration, validateAuthorizersFrom, validateAuthorizer,
    ValidateWebhookConfiguration, nameErrs, authorizedTTLErrs, unauthorizedTTLErrs,
    timeoutErrs, sarErrsAndSample, failurePolicyErrs, connectionInfoErrs,
    matchConditionErrsFrom, countWebhooks, insertStr, buildAuthorizationConfiguration,
    legacyOptions, NewBuiltInAuthorizationOptions, ModeAlwaysAllow, ModeWebhook,
    TypeWebhook, DefaultWebhookName, AuthorizationModeChoices, RepeatableAuthorizerTypes,
    minute, second, hne, hAbs, hStat]
  decide

/-- C5 witness: the round trip at the concrete path /etc/kubeconfig on a
file system where every path is a regular file. -/
theorem legacy_build_then_validate_witness :
    ValidateAuthorizationConfiguration [] fsAllRegular
        (buildAuthorizationConfiguration (legacyOptions "/etc/kubeconfig"))
        AuthorizationModeChoices RepeatableAuthorizerTypes = []
  ∧ (buildAuthorizationConfiguration (legacyOptions "/etc/kubeconfig")).authorizers.length = 2
  ∧ (buildAuthorizationConfiguration (legacyOptions "/etc/kubeconfig")).authorizers.get? 1 =
      some ⟨TypeWebhook, some
        { name := DefaultWebhookName
        , authorizedTTL := 5 * minute
        , unauthorizedTTL := 30 * second
        , timeout := 30 * second
        , failurePolicy := "NoOpinion"
        , subjectAccessReviewVersion := "v1beta1"
        , connectionInfo := { type := "KubeConfigFile", kubeConfigFile := some "/etc/kubeconfig" }
        , matchConditions := [] }⟩ :=
  legacy_build_then_validate "/etc/kubeconfig" fsAllRegular (by decide) rfl

/-- A connection-info value that passes the connection block: in-cluster with
no kube-config file, or a kube-config file that is non-empty, absolute and
stats as a regular file. -/
def connectionInfoOK (fs : FS) (c : WebhookConfiguration) : Prop :=
  (c.connectionInfo.type = "InClusterConfig" ∧ c.connectionInfo.kubeConfigFile = none) ∨
  (c.connectionInfo.type = "KubeConfigFile" ∧ ∃ f, c.connectionInfo.kubeConfigFile = some f ∧
    f ≠ "" ∧ isAbs f = true ∧ fs f = .entry true)

/-- A webhook configuration that is well-formed in every field other than its
name: every block of `ValidateWebhookConfiguration` apart from the name block
produces no error on it. -/
def wellFormedButName (fs : FS) (c : WebhookConfiguration) : Prop :=
  c.authorizedTTL ≠ 0 ∧ c.unauthorizedTTL ≠ 0 ∧ c.timeout ≠ 0 ∧ ¬ c.timeout > 30 * minute ∧
  (c.subjectAccessReviewVersion = "v1" ∨ c.subjectAccessReviewVersion = "v1beta1") ∧
  (c.failurePolicy = "NoOpinion" ∨ c.failurePolicy = "Deny") ∧
  connectionInfoOK fs c ∧
  (∀ mc ∈ c.matchConditions, (trimSpace mc.expression).length ≠ 0)

/-- The match-conditions loop is silent when no expression is blank. -/
lemma matchConditionErrsFrom_nil (p : FieldPath) (s : Option String)
    (conds : List WebhookMatchCondition) (i : Nat)
    (h : ∀ mc ∈ conds, (trimSpace mc.expression).length ≠ 0) :
    matchConditionErrsFrom p s conds i = [] := by
  induction conds generalizing i with
  | nil => rfl
  | cons mc rest ih =>
    have h1 := h mc (by simp)
    simp [matchConditionErrsFrom, h1, ValidateWebhookMatchCondition]
    exact ih (i + 1) (fun mc hm => h mc (by simp [hm]))

/-- The connection-info block is silent on an acceptable connection info. -/
lemma connectionInfoErrs_nil (p : FieldPath) (fs : FS) (c : WebhookConfiguration)
    (h : connectionInfoOK fs c) : connectionInfoErrs p fs c = [] := by
  rcases h with ⟨ht, hf⟩ | ⟨ht, f, hf, hne, habs, hstat⟩
  · simp [connectionInfoErrs, ht, hf]
  · simp [connectionInfoErrs, ht, hf, hne, habs, hstat]

/-- On a webhook that is well-formed except for an empty name, validation
under `requireName` produces exactly the Required name error, and records the
empty name in the seen set. -/
lemma webhookErrs_wellFormedButName (p : FieldPath) (fs : FS) (c : WebhookConfiguration)
    (sn : StringSet) (h : wellFormedButName fs c) (hname : c.name = "") :
    ValidateWebhookConfiguration p fs c true sn =
      ([fieldRequired (p ++ [.child "name"]) ""], insertStr "" sn) := by
  obtain ⟨h1, h2, h3, h4, h5, h6, h7, h8⟩ := h
  have hm : ∀ s, matchConditionErrsFrom p s c.matchConditions 0 = [] :=
    fun s => matchConditionErrsFrom_nil p s c.matchConditions 0 h8
  have hc := connectionInfoErrs_nil p fs c h7
  rcases h5 with h5 | h5 <;> rcases h6 with h6 | h6 <;>
    simp [ValidateWebhookConfiguration, nameErrs, authorizedTTLErrs, unauthorizedTTLErrs,
      timeoutErrs, sarErrsAndSample, failurePolicyErrs, hname, h1, h2, h3, h4, h5, h6, hc, hm]

/-- C3 (amended): because line 70 passes `webhooks > 0`, the name requirement
applies as soon as one webhook exists in the chain: a single otherwise
well-formed Webhook entry with an empty name yields exactly one Required
error on its name field, and a chain of two such entries yields exactly one
Required name error per entry, independent of the duplicate-name logic. -/
theorem empty_name_webhooks_required (fldPath : FieldPath) (fs : FS) (kt rt : StringSet)
    (c1 c2 : WebhookConfiguration)
    (hkt : kt.contains "Webhook" = true) (hrt : rt.contains "Webhook" = true)
    (hn1 : c1.name = "") (hn2 : c2.name = "")
    (hw1 : wellFormedButName fs c1) (hw2 : wellFormedButName fs c2) :
    ValidateAuthorizationConfiguration fldPath fs ⟨[⟨TypeWebhook, some c1⟩]⟩ kt rt
      = [fieldRequired (fldPath ++ [.child "authorizers", .index 0, .child "name"]) ""]
  ∧ ValidateAuthorizationConfiguration fldPath fs
        ⟨[⟨TypeWebhook, some c1⟩, ⟨TypeWebhook, some c2⟩]⟩ kt rt
      = [fieldRequired (fldPath ++ [.child "authorizers", .index 0, .child "name"]) "",
         fieldRequired (fldPath ++ [.child "authorizers", .index 1, .child "name"]) ""] := by
  have hkt2 : "Webhook" ∈ kt := by simpa using hkt
  have hrt2 : "Webhook" ∈ rt := by simpa using hrt
  have e1 := webhookErrs_wellFormedButName (fldPath ++ [.child "authorizers", .index 0]) fs c1
    [] hw1 hn1
  have e2 := webhookErrs_wellFormedButName (fldPath ++ [.child "authorizers", .index 1]) fs c2
    [""] hw2 hn2
  constructor <;>
    simp [ValidateAuthorizationConfiguration, validateAuthorizersFrom, validateAuthorizer,
      countWebhooks, TypeWebhook, hkt, hrt, hkt2, hrt2, insertStr, e1, e2]

/-- The empty-named bare-minimum webhook is well-formed except for its name. -/
lemma wcEmptyName_wellFormed : wellFormedButName fsAllRegular wcEmptyName :=
  ⟨by decide, by decide, by decide, by decide, Or.inl rfl, Or.inl rfl,
   Or.inl ⟨rfl, rfl⟩, by simp [wcEmptyName, baseWebhook]⟩

/-- C3 witness: the amended behavior at the concrete empty-named webhook,
alone and duplicated. -/
theorem empty_name_webhooks_required_witness :
    ValidateAuthorizationConfiguration [] fsAllRegular ⟨[⟨TypeWebhook, some wcEmptyName⟩]⟩
        ["Webhook"] ["Webhook"]
      = [fieldRequired [.child "authorizers", .index 0, .child "name"] ""]
  ∧ ValidateAuthorizationConfiguration [] fsAllRegular
        ⟨[⟨TypeWebhook, some wcEmptyName⟩, ⟨TypeWebhook, some wcEmptyName⟩]⟩
        ["Webhook"] ["Webhook"]
      = [fieldRequired [.child "authorizers", .index 0, .child "name"] "",
         fieldRequired [.child "authorizers", .index 1, .child "name"] ""] :=
  empty_name_webhooks_required [] fsAllRegular ["Webhook"] ["Webhook"] wcEmptyName wcEmptyName
    rfl rfl rfl rfl wcEmptyName_wellFormed wcEmptyName_wellFormed

/-- Every error of the name block is attributed to the name field. -/
lemma mem_nameErrs_field (p : FieldPath) (c : WebhookConfiguration) (rn : Bool)
    (sn : StringSet) (e : FieldError) (he : e ∈ nameErrs p c rn sn) :
    e.field = p ++ [.child "name"] := by
  unfold nameErrs at he
  repeat' split at he
  all_goals simp_all [fieldRequired, fieldDuplicate]

/-- Every error of the authorizedTTL block is attributed to that field. -/
lemma mem_authorizedTTLErrs_field (p : FieldPath) (c : WebhookConfiguration) (e : FieldError)
    (he : e ∈ authorizedTTLErrs p c) : e.field = p ++ [.child "authorizedTTL"] := by
  unfold authorizedTTLErrs at he
  repeat' split at he
  all_goals simp_all [fieldRequired]

/-- Every error of the unauthorizedTTL block is attributed to that field. -/
lemma mem_unauthorizedTTLErrs_field (p : FieldPath) (c : WebhookConfiguration) (e : FieldError)
    (he : e ∈ unauthorizedTTLErrs p c) : e.field = p ++ [.child "unauthorizedTTL"] := by
  unfold unauthorizedTTLErrs at he
  repeat' split at he
  all_goals simp_all [fieldRequired]

/-- Every error of the timeout block is attributed to the timeout field. -/
lemma mem_timeoutErrs_field (p : FieldPath) (c : WebhookConfiguration) (e : FieldError)
    (he : e ∈ timeoutErrs p c) : e.field = p ++ [.child "timeout"] := by
  unfold timeoutErrs at he
  repeat' split at he
  all_goals simp_all [fieldRequired, fieldInvalid]

/-- Every error of the SAR-version block is attributed to that field. -/
lemma mem_sarErrs_field (p : FieldPath) (c : WebhookConfiguration) (e : FieldError)
    (he : e ∈ (sarErrsAndSample p c).1) : e.field = p ++ [.child "subjectAccessReviewVersion"] := by
  unfold sarErrsAndSample at he
  repeat' split at he
  all_goals simp_all [fieldRequired, fieldNotSupported]

/-- Every error of the failurePolicy block is attributed to that field. -/
lemma mem_failurePolicyErrs_field (p : FieldPath) (c : WebhookConfiguration) (e : FieldError)
    (he : e ∈ failurePolicyErrs p c) : e.field = p ++ [.child "failurePolicy"] := by
  unfold failurePolicyErrs at he
  repeat' split at he
  all_goals simp_all [fieldRequired, fieldNotSupported]

/-- Every error of the connection-info block is attributed to its type or
its kubeConfigFile field. -/
lemma mem_connectionInfoErrs_field (p : FieldPath) (fs : FS) (c : WebhookConfiguration)
    (e : FieldError) (he : e ∈ connectionInfoErrs p fs c) :
    e.field = p ++ [.child "connectionInfo", .child "type"] ∨
    e.field = p ++ [.child "connectionInfo", .child "kubeConfigFile"] := by
  unfold connectionInfoErrs at he
  repeat' split at he
  all_goals simp_all [fieldRequired, fieldInvalid, fieldNotSupported]

/-- Every error of the match-conditions loop started at index `i` is a
Required error at the expression field of some index in range. -/
lemma mem_matchCondErrs_shape (p : FieldPath) (s : Option String)
    (conds : List WebhookMatchCondition) (i : Nat) (e : FieldError)
    (he : e ∈ matchConditionErrsFrom p s conds i) :
    ∃ k, i ≤ k ∧ k < i + conds.length ∧
      e = fieldRequired (p ++ [.child "matchConditions", .index k, .child "expression"]) "" := by
  induction conds generalizing i with
  | nil => simp [matchConditionErrsFrom] at he
  | cons mc rest ih =>
    unfold matchConditionErrsFrom at he
    rw [List.mem_append] at he
    rcases he with he | he
    · split at he
      · refine ⟨i, le_refl i, by simp, by simpa using he⟩
      · simp [ValidateWebhookMatchCondition] at he
    · obtain ⟨k, hk1, hk2, hk3⟩ := ih (i + 1) he
      exact ⟨k, by omega, by simp; omega, hk3⟩

/-- With an empty seen-name set the name block can produce no Duplicate. -/
lemma nameErrs_fresh_no_dup (p : FieldPath) (c : WebhookConfiguration) (rn : Bool)
    (e : FieldError) (he : e ∈ nameErrs p c rn []) : e.errType ≠ .duplicate := by
  unfold nameErrs at he
  repeat' split at he
  all_goals simp_all [fieldRequired, fieldDuplicate]

/-- A webhook validated against an empty seen-name set never produces a
Duplicate error. -/
lemma webhook_fresh_no_dup (p : FieldPath) (fs : FS) (c : WebhookConfiguration) (rn : Bool)
    (e : FieldError) (he : e ∈ (ValidateWebhookConfiguration p fs c rn []).1) :
    e.errType ≠ .duplicate := by
  unfold ValidateWebhookConfiguration at he
  simp only [List.mem_append] at he
  rcases he with ((((((he | he) | he) | he) | he) | he) | he) | he
  · exact nameErrs_fresh_no_dup p c rn e he
  · unfold authorizedTTLErrs at he
    repeat' split at he
    all_goals simp_all [fieldRequired]
  · unfold unauthorizedTTLErrs at he
    repeat' split at he
    all_goals simp_all [fieldRequired]
  · unfold timeoutErrs at he
    repeat' split at he
    all_goals simp_all [fieldRequired, fieldInvalid]
  · unfold sarErrsAndSample at he
    repeat' split at he
    all_goals simp_all [fieldRequired, fieldNotSupported]
  · unfold failurePolicyErrs at he
    repeat' split at he
    all_goals simp_all [fieldRequired, fieldNotSupported]
  · unfold connectionInfoErrs at he
    repeat' split at he
    all_goals simp_all [fieldRequired, fieldInvalid, fieldNotSupported]
  · obtain ⟨k, _, _, hk⟩ := mem_matchCondErrs_shape p _ c.matchConditions 0 e he
    simp [hk, fieldRequired]

/-- An entry processed with fresh seen sets never produces a Duplicate. -/
lemma validateAuthorizer_fresh_no_dup (p : FieldPath) (fs : FS) (rn : Bool)
    (kt rt : StringSet) (a : AuthorizerConfiguration) (e : FieldError)
    (he : e ∈ (validateAuthorizer p fs rn kt rt a [] []).1) : e.errType ≠ .duplicate := by
  unfold validateAuthorizer at he
  repeat' split at he
  all_goals first
    | exact webhook_fresh_no_dup _ _ _ _ e he
    | simp_all [fieldRequired, fieldInvalid, fieldNotSupported]

/-- C6: a two-entry chain repeating one known non-repeatable type yields the
one-entry chain's errors followed by exactly one Duplicate error on the
second entry's type field, whatever the second entry's webhook holds (no
further checks run on it); and the one-entry part contains no Duplicate. -/
theorem duplicate_type_single_error_skips_entry (fldPath : FieldPath) (fs : FS) (kt rt : StringSet) (t : String)
    (w1 w2 : Option WebhookConfiguration)
    (h1 : t ≠ "") (h2 : kt.contains t = true) (h3 : rt.contains t = false) :
    ValidateAuthorizationConfiguration fldPath fs ⟨[⟨t, w1⟩, ⟨t, w2⟩]⟩ kt rt
      = ValidateAuthorizationConfiguration fldPath fs ⟨[⟨t, w1⟩]⟩ kt rt
        ++ [fieldDuplicate (fldPath ++ [.child "authorizers", .index 1, .child "type"]) (.str t)]
  ∧ ∀ e ∈ ValidateAuthorizationConfiguration fldPath fs ⟨[⟨t, w1⟩]⟩ kt rt,
      e.errType ≠ .duplicate := by
  have h2m : t ∈ kt := by simpa using h2
  have h3m : t ∉ rt := by simpa using h3
  constructor
  · by_cases ht : t = "Webhook"
    · subst ht
      rcases w1 with _ | w <;>
        simp [ValidateAuthorizationConfiguration, validateAuthorizersFrom, validateAuthorizer,
          countWebhooks, TypeWebhook, insertStr, h1, h2, h2m, h3, h3m]
    · rcases w1 with _ | w <;>
        simp [ValidateAuthorizationConfiguration, validateAuthorizersFrom, validateAuthorizer,
          countWebhooks, TypeWebhook, insertStr, h1, h2, h2m, h3, h3m, ht]
  · intro e he
    have hrw : ValidateAuthorizationConfiguration fldPath fs ⟨[⟨t, w1⟩]⟩ kt rt
        = (validateAuthorizer (fldPath ++ [.child "authorizers", .index 0]) fs
            (decide (0 < countWebhooks [⟨t, w1⟩])) kt rt ⟨t, w1⟩ [] []).1 := by
      simp [ValidateAuthorizationConfiguration, validateAuthorizersFrom]
    rw [hrw] at he
    exact validateAuthorizer_fresh_no_dup _ fs _ kt rt ⟨t, w1⟩ e he

/-- C7: a known non-duplicate Webhook entry with a null webhook yields
exactly one Required error on its webhook field, and a known non-Webhook
entry with a non-null webhook yields exactly one Invalid error on its
webhook field, both at the loop level and for one-entry chains. -/
theorem webhook_field_presence_errors :
    (∀ (p : FieldPath) (fs : FS) (rn : Bool) (kt rt st sn : StringSet),
      kt.contains "Webhook" = true → st.contains "Webhook" = false →
      (validateAuthorizer p fs rn kt rt ⟨TypeWebhook, none⟩ st sn).1
        = [fieldRequired (p ++ [.child "webhook"]) "required when type=Webhook"])
  ∧ (∀ (p : FieldPath) (fs : FS) (rn : Bool) (kt rt st sn : StringSet) (t : String)
      (w : WebhookConfiguration),
      t ≠ "" → t ≠ TypeWebhook → kt.contains t = true → st.contains t = false →
      (validateAuthorizer p fs rn kt rt ⟨t, some w⟩ st sn).1
        = [fieldInvalid (p ++ [.child "webhook"]) (.str "non-null")
            "may only be specified when type=Webhook"])
  ∧ (∀ (fldPath : FieldPath) (fs : FS) (kt rt : StringSet),
      kt.contains "Webhook" = true →
      ValidateAuthorizationConfiguration fldPath fs ⟨[⟨TypeWebhook, none⟩]⟩ kt rt
        = [fieldRequired (fldPath ++ [.child "authorizers", .index 0, .child "webhook"])
            "required when type=Webhook"])
  ∧ (∀ (fldPath : FieldPath) (fs : FS) (kt rt : StringSet) (t : String)
      (w : WebhookConfiguration),
      t ≠ "" → t ≠ TypeWebhook → kt.contains t = true →
      ValidateAuthorizationConfiguration fldPath fs ⟨[⟨t, some w⟩]⟩ kt rt
        = [fieldInvalid (fldPath ++ [.child "authorizers", .index 0, .child "webhook"])
            (.str "non-null") "may only be specified when type=Webhook"]) := by
  refine ⟨?_, ?_, ?_, ?_⟩
  · intro p fs rn kt rt st sn hkt hst
    have hktm : "Webhook" ∈ kt := by simpa using hkt
    have hstm : "Webhook" ∉ st := by simpa using hst
    simp [validateAuthorizer, TypeWebhook, hkt, hktm, hst, hstm]
  · intro p fs rn kt rt st sn t w h1 h2 hkt hst
    have hktm : t ∈ kt := by simpa using hkt
    have hstm : t ∉ st := by simpa using hst
    have h2w : t ≠ "Webhook" := by simpa [TypeWebhook] using h2
    simp [validateAuthorizer, TypeWebhook, h1, h2, h2w, hkt, hktm, hst, hstm]
  · intro fldPath fs kt rt hkt
    have hktm : "Webhook" ∈ kt := by simpa using hkt
    simp [ValidateAuthorizationConfiguration, validateAuthorizersFrom, validateAuthorizer,
      countWebhooks, TypeWebhook, hkt, hktm]
  · intro fldPath fs kt rt t w h1 h2 hkt
    have hktm : t ∈ kt := by simpa using hkt
    have h2w : t ≠ "Webhook" := by simpa [TypeWebhook] using h2
    simp [ValidateAuthorizationConfiguration, validateAuthorizersFrom, validateAuthorizer,
      countWebhooks, TypeWebhook, h1, h2, h2w, hkt, hktm]

/-- C6 witness: the duplicate equation at a concrete AlwaysAllow chain. -/
theorem duplicate_type_single_error_witness :
    ValidateAuthorizationConfiguration [] fsAllRegular
        ⟨[⟨"AlwaysAllow", none⟩, ⟨"AlwaysAllow", none⟩]⟩ ["AlwaysAllow", "Webhook"] ["Webhook"]
      = ValidateAuthorizationConfiguration [] fsAllRegular ⟨[⟨"AlwaysAllow", none⟩]⟩
          ["AlwaysAllow", "Webhook"] ["Webhook"]
        ++ [fieldDuplicate [.child "authorizers", .index 1, .child "type"] (.str "AlwaysAllow")]
  ∧ ∀ e ∈ ValidateAuthorizationConfiguration [] fsAllRegular ⟨[⟨"AlwaysAllow", none⟩]⟩
        ["AlwaysAllow", "Webhook"] ["Webhook"],
      e.errType ≠ .duplicate :=
  duplicate_type_single_error_skips_entry [] fsAllRegular ["AlwaysAllow", "Webhook"] ["Webhook"]
    "AlwaysAllow" none none (by decide) (by decide) (by decide)

/-- C7 witness: the four statements at concrete entries and chains. -/
theorem webhook_field_presence_witness :
    (validateAuthorizer [] fsAllRegular false ["Webhook"] [] ⟨TypeWebhook, none⟩ [] []).1
      = [fieldRequired [.child "webhook"] "required when type=Webhook"]
  ∧ (validateAuthorizer [] fsAllRegular false ["AlwaysAllow"] [] ⟨"AlwaysAllow", some baseWebhook⟩
        [] []).1
      = [fieldInvalid [.child "webhook"] (.str "non-null") "may only be specified when type=Webhook"]
  ∧ ValidateAuthorizationConfiguration [] fsAllRegular ⟨[⟨TypeWebhook, none⟩]⟩ ["Webhook"] []
      = [fieldRequired [.child "authorizers", .index 0, .child "webhook"]
          "required when type=Webhook"]
  ∧ ValidateAuthorizationConfiguration [] fsAllRegular ⟨[⟨"AlwaysAllow", some baseWebhook⟩]⟩
        ["AlwaysAllow"] []
      = [fieldInvalid [.child "authorizers", .index 0, .child "webhook"] (.str "non-null")
          "may only be specified when type=Webhook"] :=
  ⟨webhook_field_presence_errors.1 [] fsAllRegular false ["Webhook"] [] [] [] rfl rfl,
   webhook_field_presence_errors.2.1 [] fsAllRegular false ["AlwaysAllow"] [] [] []
     "AlwaysAllow" baseWebhook (by decide) (by decide) rfl rfl,
   webhook_field_presence_errors.2.2.1 [] fsAllRegular ["Webhook"] [] rfl,
   webhook_field_presence_errors.2.2.2 [] fsAllRegular ["AlwaysAllow"] [] "AlwaysAllow"
     baseWebhook (by decide) (by decide) rfl⟩

/-- The match-conditions loop distributes over list append, shifting the
running index. -/
lemma matchCondErrs_append (p : FieldPath) (s : Option String)
    (l1 l2 : List WebhookMatchCondition) (i : Nat) :
    matchConditionErrsFrom p s (l1 ++ l2) i
      = matchConditionErrsFrom p s l1 i ++ matchConditionErrsFrom p s l2 (i + l1.length) := by
  induction l1 generalizing i with
  | nil => simp [matchConditionErrsFrom]
  | cons mc rest ih =>
    have harith : i + 1 + rest.length = i + (rest.length + 1) := by omega
    simp only [List.cons_append, matchConditionErrsFrom, List.append_eq, ih (i + 1),
      List.append_assoc, List.length_cons, harith]

/-- C10: when the connection-info type is a non-empty unknown value, the
validation result contains exactly one error attributed to the
connectionInfo.type field: a NotSupported error whose offending value is the
webhook's failurePolicy (line 146 of validation.go passes `c.FailurePolicy`,
not the connection-info type). -/
theorem connection_type_unknown_bad_value (p : FieldPath) (fs : FS) (c : WebhookConfiguration) (rn : Bool) (sn : StringSet)
    (h1 : c.connectionInfo.type ≠ "") (h2 : c.connectionInfo.type ≠ "InClusterConfig")
    (h3 : c.connectionInfo.type ≠ "KubeConfigFile") :
    (ValidateWebhookConfiguration p fs c rn sn).1.filter
        (fun e => decide (e.field = p ++ [.child "connectionInfo", .child "type"]))
      = [fieldNotSupported (p ++ [.child "connectionInfo", .child "type"])
          (.str c.failurePolicy) ["InClusterConfig", "KubeConfigFile"]] := by
  have hconn : connectionInfoErrs p fs c
      = [fieldNotSupported (p ++ [.child "connectionInfo", .child "type"])
          (.str c.failurePolicy) ["InClusterConfig", "KubeConfigFile"]] := by
    simp [connectionInfoErrs, h1, h2, h3]
  have hname : ∀ e ∈ nameErrs p c rn sn,
      ¬ (decide (e.field = p ++ [.child "connectionInfo", .child "type"]) = true) := by
    intro e he
    simp [mem_nameErrs_field p c rn sn e he]
  have hattl : ∀ e ∈ authorizedTTLErrs p c,
      ¬ (decide (e.field = p ++ [.child "connectionInfo", .child "type"]) = true) := by
    intro e he
    simp [mem_authorizedTTLErrs_field p c e he]
  have huttl : ∀ e ∈ unauthorizedTTLErrs p c,
      ¬ (decide (e.field = p ++ [.child "connectionInfo", .child "type"]) = true) := by
    intro e he
    simp [mem_unauthorizedTTLErrs_field p c e he]
  have hto : ∀ e ∈ timeoutErrs p c,
      ¬ (decide (e.field = p ++ [.child "connectionInfo", .child "type"]) = true) := by
    intro e he
    simp [mem_timeoutErrs_field p c e he]
  have hsar : ∀ e ∈ (sarErrsAndSample p c).1,
      ¬ (decide (e.field = p ++ [.child "connectionInfo", .child "type"]) = true) := by
    intro e he
    simp [mem_sarErrs_field p c e he]
  have hfp : ∀ e ∈ failurePolicyErrs p c,
      ¬ (decide (e.field = p ++ [.child "connectionInfo", .child "type"]) = true) := by
    intro e he
    simp [mem_failurePolicyErrs_field p c e he]
  have hmc : ∀ e ∈ matchConditionErrsFrom p (sarErrsAndSample p c).2 c.matchConditions 0,
      ¬ (decide (e.field = p ++ [.child "connectionInfo", .child "type"]) = true) := by
    intro e he
    obtain ⟨k, _, _, hk⟩ := mem_matchCondErrs_shape p _ c.matchConditions 0 e he
    simp [hk, fieldRequired]
  simp only [ValidateWebhookConfiguration, List.filter_append]
  rw [List.filter_eq_nil_iff.mpr hname, List.filter_eq_nil_iff.mpr hattl, List.filter_eq_nil_iff.mpr huttl,
    List.filter_eq_nil_iff.mpr hto, List.filter_eq_nil_iff.mpr hsar, List.filter_eq_nil_iff.mpr hfp,
    List.filter_eq_nil_iff.mpr hmc, hconn]
  simp [fieldNotSupported]

/-- C9: the semantic match-condition check is a placeholder returning no
errors for every input, and the errors attributed to the expression field of
the match condition at index `pre.length` are exactly one Required error when
the expression is blank after trimming, and none otherwise. -/
theorem match_condition_blank_required (p : FieldPath) (fs : FS) (c : WebhookConfiguration)
    (rn : Bool) (sn : StringSet) (pre post : List WebhookMatchCondition)
    (mc : WebhookMatchCondition)
    (hdecomp : c.matchConditions = pre ++ mc :: post) :
    (∀ (q : FieldPath) (s : Option String) (expr : String),
      ValidateWebhookMatchCondition q s expr = [])
  ∧ (ValidateWebhookConfiguration p fs c rn sn).1.filter
        (fun e => decide (e.field
          = p ++ [.child "matchConditions", .index pre.length, .child "expression"]))
      = (if (trimSpace mc.expression).length = 0 then
          [fieldRequired
            (p ++ [.child "matchConditions", .index pre.length, .child "expression"]) ""]
         else []) := by
  refine ⟨fun _ _ _ => rfl, ?_⟩
  have hname : ∀ e ∈ nameErrs p c rn sn,
      ¬ (decide (e.field = p ++ [.child "matchConditions", .index pre.length, .child "expression"]) = true) := by
    intro e he
    simp [mem_nameErrs_field p c rn sn e he]
  have hattl : ∀ e ∈ authorizedTTLErrs p c,
      ¬ (decide (e.field = p ++ [.child "matchConditions", .index pre.length, .child "expression"]) = true) := by
    intro e he
    simp [mem_authorizedTTLErrs_field p c e he]
  have huttl : ∀ e ∈ unauthorizedTTLErrs p c,
      ¬ (decide (e.field = p ++ [.child "matchConditions", .index pre.length, .child "expression"]) = true) := by
    intro e he
    simp [mem_unauthorizedTTLErrs_field p c e he]
  have hto : ∀ e ∈ timeoutErrs p c,
      ¬ (decide (e.field = p ++ [.child "matchConditions", .index pre.length, .child "expression"]) = true) := by
    intro e he
    simp [mem_timeoutErrs_field p c e he]
  have hsar : ∀ e ∈ (sarErrsAndSample p c).1,
      ¬ (decide (e.field = p ++ [.child "matchConditions", .index pre.length, .child "expression"]) = true) := by
    intro e he
    simp [mem_sarErrs_field p c e he]
  have hfp : ∀ e ∈ failurePolicyErrs p c,
      ¬ (decide (e.field = p ++ [.child "matchConditions", .index pre.length, .child "expression"]) = true) := by
    intro e he
    simp [mem_failurePolicyErrs_field p c e he]
  have hci : ∀ e ∈ connectionInfoErrs p fs c,
      ¬ (decide (e.field = p ++ [.child "matchConditions", .index pre.length, .child "expression"]) = true) := by
    intro e he
    rcases mem_connectionInfoErrs_field p fs c e he with hf | hf <;> simp [hf]
  have hpre : ∀ e ∈ matchConditionErrsFrom p (sarErrsAndSample p c).2 pre 0,
      ¬ (decide (e.field = p ++ [.child "matchConditions", .index pre.length, .child "expression"]) = true) := by
    intro e he
    obtain ⟨k, hk1, hk2, hk3⟩ := mem_matchCondErrs_shape p _ pre 0 e he
    have hkj : k ≠ pre.length := by omega
    simp [hk3, fieldRequired, hkj]
  have hpost : ∀ e ∈ matchConditionErrsFrom p (sarErrsAndSample p c).2 post (0 + pre.length + 1),
      ¬ (decide (e.field = p ++ [.child "matchConditions", .index pre.length, .child "expression"]) = true) := by
    intro e he
    obtain ⟨k, hk1, hk2, hk3⟩ := mem_matchCondErrs_shape p _ post (0 + pre.length + 1) e he
    have hkj : k ≠ pre.length := by omega
    simp [hk3, fieldRequired, hkj]
  simp only [ValidateWebhookConfiguration, hdecomp, matchCondErrs_append, List.filter_append]
  rw [List.filter_eq_nil_iff.mpr hname, List.filter_eq_nil_iff.mpr hattl,
    List.filter_eq_nil_iff.mpr huttl, List.filter_eq_nil_iff.mpr hto,
    List.filter_eq_nil_iff.mpr hsar, List.filter_eq_nil_iff.mpr hfp,
    List.filter_eq_nil_iff.mpr hci, List.filter_eq_nil_iff.mpr hpre]
  simp only [matchConditionErrsFrom, List.filter_append, List.filter_eq_nil_iff.mpr hpost]
  by_cases hb : (trimSpace mc.expression).length = 0 <;>
    simp [hb, ValidateWebhookMatchCondition, fieldRequired]

/-- The bare-minimum webhook with an unknown connection-info type. -/
def wcBadConnType : WebhookConfiguration :=
  { baseWebhook with connectionInfo := { type := "ExternalClusterConfig", kubeConfigFile := none } }

/-- C10 witness: the unknown connection type at a concrete webhook; the bad
value carried by the single NotSupported error is the failurePolicy value. -/
theorem connection_type_unknown_bad_value_witness :
    (ValidateWebhookConfiguration [] fsAllRegular wcBadConnType false []).1.filter
        (fun e => decide (e.field = [] ++ [PathElem.child "connectionInfo", PathElem.child "type"]))
      = [fieldNotSupported ([] ++ [PathElem.child "connectionInfo", PathElem.child "type"])
          (.str wcBadConnType.failurePolicy) ["InClusterConfig", "KubeConfigFile"]] :=
  connection_type_unknown_bad_value [] fsAllRegular wcBadConnType false []
    (by decide) (by decide) (by decide)

/-- The bare-minimum webhook with one blank and one non-blank condition. -/
def wcBlankCond : WebhookConfiguration :=
  { baseWebhook with matchConditions := [{ expression := " " }, { expression := "true" }] }

/-- C9 witness: at the concrete two-condition webhook, the blank condition at
index 0 yields its Required error and the non-blank condition at index 1
yields none. -/
theorem match_condition_blank_required_witness :
    ((∀ (q : FieldPath) (s : Option String) (expr : String),
        ValidateWebhookMatchCondition q s expr = [])
      ∧ (ValidateWebhookConfiguration [] fsAllRegular wcBlankCond false []).1.filter
          (fun e => decide (e.field
            = [] ++ [PathElem.child "matchConditions", PathElem.index 0, PathElem.child "expression"]))
        = [fieldRequired
            ([] ++ [PathElem.child "matchConditions", PathElem.index 0, PathElem.child "expression"]) ""])
  ∧ (ValidateWebhookConfiguration [] fsAllRegular wcBlankCond false []).1.filter
        (fun e => decide (e.field
          = [] ++ [PathElem.child "matchConditions", PathElem.index 1, PathElem.child "expression"]))
      = [] :=
  ⟨match_condition_blank_required [] fsAllRegular wcBlankCond false []
      [] [{ expression := "true" }] { expression := " " } rfl,
   (match_condition_blank_required [] fsAllRegular wcBlankCond false []
      [{ expression := " " }] [] { expression := "true" } rfl).2⟩
